import Mathlib

/-!
Shallow embedding of `src/library.cpp` (a minimal library-catalog program).

Shared mutable ownership (`shared_ptr<Book>` / `shared_ptr<Publication>`
aliased between `Library` and `Reader`) is modelled with an explicit heap:
a list of publication objects addressed by natural-number references.
A possibly-null smart pointer is an `Option Nat` (`none` = null).
Everything written to standard output is modelled as a `String`, with
`"\n"` for `endl`.
-/

/-- Represents the author of a publication (`class Author`). -/
structure Author where
  name : String
deriving DecidableEq, Repr

/-- Common data of the borrowable `Book` part of an object: the
`Publication` fields (title, year, author) plus `Book`'s own
genre and availability flag. -/
structure BookData where
  title : String
  year : Int
  author : Author
  genre : String
  available : Bool
deriving DecidableEq, Repr

/-- A heap object: one of the three concrete `Publication` variants.
`ebook` extends `book` in the C++ source, so it carries the same
`BookData` (including the availability flag) plus a file size.
The file size (a C++ `double`) is modelled as a rational number. -/
inductive Publication where
  | book (d : BookData)
  | magazine (title : String) (year : Int) (author : Author) (issue : Int)
  | ebook (d : BookData) (fileSize : ℚ)
deriving DecidableEq, Repr

namespace Publication

/-- Publication::getTitle. -/
def getTitle : Publication → String
  | .book d => d.title
  | .magazine t _ _ _ => t
  | .ebook d _ => d.title

/-- Whether the object has the `Book` part (a `shared_ptr<Book>` in the
source can only designate a `Book` or an `EBook`, never a `Magazine`). -/
def isBook : Publication → Bool
  | .book _ => true
  | .ebook _ _ => true
  | .magazine _ _ _ _ => false

/-- Book::isAvailable. A `Magazine` has no availability in the source
(the case is unreachable through a `shared_ptr<Book>`); it is mapped to
`false` so that the model never borrows a magazine. -/
def isAvailable : Publication → Bool
  | .book d => d.available
  | .ebook d _ => d.available
  | .magazine _ _ _ _ => false

/-- Book::borrow — sets the availability flag to false (identity on the
unreachable magazine case). -/
def borrow : Publication → Publication
  | .book d => .book { d with available := false }
  | .ebook d s => .ebook { d with available := false } s
  | .magazine t y a i => .magazine t y a i

/-- Book::ret — sets the availability flag to true (identity on the
unreachable magazine case). -/
def ret : Publication → Publication
  | .book d => .book { d with available := true }
  | .ebook d s => .ebook { d with available := true } s
  | .magazine t y a i => .magazine t y a i

end Publication

/-- Zero-padding of a digit string to a given width, used when printing
the fractional part of a decimal number. -/
def padZeros (s : String) (k : Nat) : String :=
  if s.length ≥ k then s else String.mk (List.replicate (k - s.length) '0') ++ s

/-- Models how `cout` (default precision) prints the program's `double`
values: for a rational exactly representable with at most six decimal
places, the shortest decimal expansion is produced, which is exactly what
`cout <<` prints for such doubles (e.g. `5.6` prints as "5.6").
`k` is the least number of decimal places that represents `q` exactly
(that is, the least `j ≤ 6` whose power of ten the denominator divides),
and `m` is the corresponding digit string `|q| * 10 ^ k`. -/
def decimalString (q : ℚ) : String :=
  let k := (((List.range 7).filter fun j => (10 : Nat) ^ j % q.den = 0).head?).getD 6
  let m := q.num.natAbs * ((10 : Nat) ^ k / q.den)
  let sign := if q.num < 0 then "-" else ""
  if k = 0 then sign ++ toString m
  else sign ++ toString (m / 10 ^ k) ++ "." ++ padZeros (toString (m % 10 ^ k)) k

namespace Publication

/-- The polymorphic displayInfo: everything one call writes to standard
output, trailing newline included.
Book: `Book: {title} ({year}), {genre} - {author} [Available|Taken]`.
Magazine: `Magazine: {title} #{issue} ({year}) - {author}`.
EBook: `E-Book: {title} ({year}), size: {fileSize}MB - {author}`. -/
def display : Publication → String
  | .book d =>
      "Book: " ++ d.title ++ " (" ++ toString d.year ++ "), " ++ d.genre ++
        " - " ++ d.author.name ++
        (if d.available then " [Available]" else " [Taken]") ++ "\n"
  | .magazine t y a i =>
      "Magazine: " ++ t ++ " #" ++ toString i ++ " (" ++ toString y ++ ") - " ++
        a.name ++ "\n"
  | .ebook d s =>
      "E-Book: " ++ d.title ++ " (" ++ toString d.year ++ "), size: " ++
        decimalString s ++ "MB - " ++ d.author.name ++ "\n"

end Publication

/-- The heap of shared publication objects. A `Nat` reference designates
the object at that position; `shared_ptr` values in the program are
`Option Nat` (with `none` for a null pointer). -/
structure Heap where
  objs : List Publication
deriving DecidableEq, Repr

namespace Heap

/-- Dereference: the object a (non-null) reference designates, if any. -/
def get (h : Heap) (i : Nat) : Option Publication := h.objs[i]?

/-- In-place update of the object at a reference. -/
def set (h : Heap) (i : Nat) (o : Publication) : Heap := ⟨h.objs.set i o⟩

/-- The effect of `b->ret()` through reference `i`. -/
def retAt (h : Heap) (i : Nat) : Heap :=
  match h.get i with
  | some o => h.set i o.ret
  | none => h

/-- One iteration of the returnAll loop body:
`if (b) b->ret();` for one entry of the borrowed list. -/
def retStep (h : Heap) (b : Option Nat) : Heap :=
  match b with
  | some i => h.retAt i
  | none => h

end Heap

/-- Loop body shared by `Reader::listBooks`, `Library::showAll` and the
`printList` template: `for (auto& x : list) if (x) x->displayInfo();`.
Null entries are skipped; each non-null entry's displayInfo output is
emitted in sequence order. -/
def displayLoop (h : Heap) : List (Option Nat) → String
  | [] => ""
  | none :: rest => displayLoop h rest
  | some i :: rest =>
      (match h.get i with
       | some o => o.display
       | none => "") ++ displayLoop h rest

/-- A reader: a name and the list of borrowed-book references
(`vector<shared_ptr<Book>>`). -/
structure Reader where
  name : String
  borrowed : List (Option Nat)
deriving DecidableEq, Repr

namespace Reader

/-- Reader::borrowBook. Returns the updated reader, the updated heap and
the text written to standard output. A dangling reference
(`h.get i = none`) cannot arise from a live `shared_ptr` and is returned
unchanged. -/
def borrowBook (r : Reader) (h : Heap) (b : Option Nat) :
    Reader × Heap × String :=
  match b with
  | none => (r, h, "Invalid book pointer\n")
  | some i =>
    match h.get i with
    | none => (r, h, "")
    | some o =>
      if o.isAvailable then
        ({ r with borrowed := r.borrowed ++ [some i] },
         h.set i o.borrow,
         r.name ++ " borrowed \"" ++ o.getTitle ++ "\"\n")
      else (r, h, "Book not available!\n")

/-- Reader::returnAll: `for (auto& b : borrowed) if (b) b->ret();`
then `borrowed.clear()`. -/
def returnAll (r : Reader) (h : Heap) : Reader × Heap :=
  ({ r with borrowed := [] }, r.borrowed.foldl Heap.retStep h)

/-- Reader::listBooks: header line, then each held (non-null) book's
displayInfo output. -/
def listBooks (r : Reader) (h : Heap) : String :=
  r.name ++ " borrowed books:\n" ++ displayLoop h r.borrowed

end Reader

/-- The library: an insertion-ordered collection of
`shared_ptr<Publication>` (null entries are storable). -/
structure Library where
  publications : List (Option Nat)
deriving DecidableEq, Repr

namespace Library

/-- Library::addPublication — appends, no deduplication, no null check. -/
def addPublication (l : Library) (p : Option Nat) : Library :=
  ⟨l.publications ++ [p]⟩

/-- Library::showAll — header, then every non-null publication's
displayInfo output in insertion order. -/
def showAll (l : Library) (h : Heap) : String :=
  "\n=== Library Collection ===\n" ++ displayLoop h l.publications

end Library

/-- The printList template instantiated at `shared_ptr<Publication>`
collections: title header, then each non-null item's displayInfo output
in sequence order. -/
def printList (h : Heap) (list : List (Option Nat)) (title : String) :
    String :=
  "\n=== " ++ title ++ " ===\n" ++ displayLoop h list

/-- Admin (the role hierarchy below abstract `User`). -/
structure Admin where
  name : String
deriving DecidableEq, Repr

namespace Admin

/-- Admin::showRole output. -/
def showRole (a : Admin) : String := a.name ++ " is Admin\n"

/-- Admin::removeBook — a stub: the library is untouched, the only
effect is the printed simulated-removal line. -/
def removeBook (a : Admin) (lib : Library) : Library × String :=
  (lib, a.name ++ " removed a book (simulated)\n")

end Admin

/-- One operation of a `Reader` interaction sequence (for stating
invariants over all reachable reader states). -/
inductive ReaderOp where
  | borrowB (b : Option Nat)
  | retAll
  | listB
deriving DecidableEq, Repr

/-- The state transition of one reader operation on reader and heap
(output discarded; `listBooks` mutates nothing). -/
def stepOp (s : Reader × Heap) (op : ReaderOp) : Reader × Heap :=
  match op with
  | .borrowB b =>
      let res := s.1.borrowBook s.2 b
      (res.1, res.2.1)
  | .retAll => s.1.returnAll s.2
  | .listB => s

/-- Runs a sequence of reader operations from an initial state. -/
def runOps (s : Reader × Heap) (ops : List ReaderOp) : Reader × Heap :=
  ops.foldl stepOp s

/-! The fixed scenario of `main`. -/

/-- Author a1 of main. -/
def herbert : Author := ⟨"Herbert Schildt"⟩

/-- Author a2 of main. -/
def bjarne : Author := ⟨"Bjarne Stroustrup"⟩

/-- The `Book` data of b1 in main (fresh books start available). -/
def b1Data : BookData := ⟨"C++ for Beginners", 2020, herbert, "Education", true⟩

/-- The `Book` part of the EBook b2 in main. -/
def b2Data : BookData :=
  ⟨"The C++ Programming Language", 2013, bjarne, "Programming", true⟩

/-- The heap after main's three `make_shared` allocations:
b1 at reference 0, b2 at 1, m1 at 2. -/
def mainHeap : Heap :=
  ⟨[.book b1Data, .ebook b2Data (mkRat 28 5),
    .magazine "TechWorld" 2025 herbert 12]⟩

/-- The reader "Ivan Petrov" of main, before borrowing. -/
def ivan : Reader := ⟨"Ivan Petrov", []⟩

/-- The state and output of main's `r.borrowBook(b1)` call. -/
def afterBorrow : Reader × Heap × String := ivan.borrowBook mainHeap (some 0)

/-- The library of main after its three addPublication calls
(b1, b2, m1 in that order). -/
def mainLib : Library :=
  (((Library.mk []).addPublication (some 0)).addPublication
      (some 1)).addPublication (some 2)

/-- The admin of main. -/
def olena : Admin := ⟨"Olena"⟩

/-- Everything main writes to standard output after the borrow call:
the borrow confirmation, the reader's listBooks, the library's showAll,
the admin's showRole and the printList over `{b1, b2, m1}`. -/
def mainOutput : String :=
  afterBorrow.2.2 ++
    afterBorrow.1.listBooks afterBorrow.2.1 ++
    mainLib.showAll afterBorrow.2.1 ++
    olena.showRole ++
    printList afterBorrow.2.1 [some 0, some 1, some 2]
      "All Publications (via template)"

/-- The EBook b2 of main as a heap object
(`EBook("The C++ Programming Language", 2013, a2, "Programming", 5.6)`). -/
def sampleEbook : Publication := .ebook b2Data (mkRat 28 5)

/-- A reader holding one (currently taken) book, used to exercise the
returnAll theorem on a concrete state. -/
def wReader : Reader := ⟨"Olha", [some 0]⟩

/-- A one-object heap whose book is currently taken, matching
`wReader`'s held reference. -/
def wHeap : Heap := ⟨[.book { b1Data with available := false }]⟩

/-- The invariant maintained by every reader operation: the borrowed
list has no duplicate references and every held reference designates an
object whose availability flag is false. -/
def ReaderInv (s : Reader × Heap) : Prop :=
  s.1.borrowed.Nodup ∧
    ∀ i : Nat, some i ∈ s.1.borrowed →
      (s.2.get i).map Publication.isAvailable = some false

/-! Basic lemmas about the heap, the publication operations and the
loops, used by the specification theorems below. -/

theorem Heap.lt_length_of_get {h : Heap} {i : Nat} {o : Publication}
    (hg : h.get i = some o) : i < h.objs.length := by
  by_contra hlt
  rw [Heap.get, List.getElem?_eq_none (Nat.le_of_not_lt hlt)] at hg
  cases hg

theorem Heap.get_set_self (h : Heap) (i : Nat) (o : Publication)
    (hi : i < h.objs.length) : (h.set i o).get i = some o := by
  simp [Heap.get, Heap.set, List.getElem?_set_self hi]

theorem Heap.get_set_ne (h : Heap) {i j : Nat} (o : Publication)
    (hij : i ≠ j) : (h.set i o).get j = h.get j := by
  simp [Heap.get, Heap.set, List.getElem?_set_ne hij]

theorem Publication.ret_ret (o : Publication) : o.ret.ret = o.ret := by
  cases o <;> rfl

theorem Publication.isAvailable_borrow (o : Publication) :
    o.borrow.isAvailable = false := by
  cases o <;> rfl

theorem Publication.isAvailable_ret_of_isBook (o : Publication)
    (hb : o.isBook = true) : o.ret.isAvailable = true := by
  cases o with
  | book d => rfl
  | ebook d s => rfl
  | magazine t y a i => cases hb

theorem Heap.retAt_get_self (h : Heap) (i : Nat) :
    (h.retAt i).get i = (h.get i).map Publication.ret := by
  unfold Heap.retAt
  cases hg : h.get i with
  | none => simp [hg]
  | some o =>
    simpa using h.get_set_self i o.ret (Heap.lt_length_of_get hg)

theorem Heap.retAt_get_ne (h : Heap) {i j : Nat} (hij : i ≠ j) :
    (h.retAt i).get j = h.get j := by
  unfold Heap.retAt
  cases hg : h.get i with
  | none => rfl
  | some o => exact h.get_set_ne o.ret hij

theorem foldl_retStep_get_not_mem (l : List (Option Nat)) (h : Heap)
    {j : Nat} (hj : some j ∉ l) :
    (l.foldl Heap.retStep h).get j = h.get j := by
  induction l generalizing h with
  | nil => rfl
  | cons b t ih =>
    have hjt : some j ∉ t := fun hm => hj (List.mem_cons_of_mem _ hm)
    have hstep : (Heap.retStep h b).get j = h.get j := by
      cases b with
      | none => rfl
      | some i =>
        have hij : i ≠ j := by
          rintro rfl
          exact hj (List.mem_cons_self _ _)
        exact h.retAt_get_ne hij
    rw [List.foldl_cons, ih _ hjt, hstep]

theorem foldl_retStep_get_mem (l : List (Option Nat)) (h : Heap)
    {i : Nat} (hi : some i ∈ l) :
    (l.foldl Heap.retStep h).get i = (h.get i).map Publication.ret := by
  induction l generalizing h with
  | nil => cases hi
  | cons b t ih =>
    rw [List.foldl_cons]
    by_cases hit : some i ∈ t
    · rw [ih _ hit]
      cases b with
      | none => rfl
      | some j =>
        by_cases hji : j = i
        · subst hji
          rw [Heap.retStep, Heap.retAt_get_self]
          cases h.get j <;> simp [Publication.ret_ret]
        · rw [Heap.retStep, Heap.retAt_get_ne h hji]
    · have hb : b = some i := by
        rcases List.mem_cons.mp hi with hb | hmem
        · exact hb.symm
        · exact absurd hmem hit
      subst hb
      rw [foldl_retStep_get_not_mem t _ hit]
      exact h.retAt_get_self i

theorem displayLoop_eq_foldr (h : Heap) (l : List (Option Nat)) :
    displayLoop h l =
      (l.filterMap fun p => p.bind h.get).foldr
        (fun o acc => o.display ++ acc) "" := by
  induction l with
  | nil => rfl
  | cons b t ih =>
    cases b with
    | none => simpa [displayLoop] using ih
    | some i =>
      cases hg : h.get i with
      | none => simp [displayLoop, hg, ih]
      | some o => simp [displayLoop, hg, ih]

theorem foldl_addPublication (ps : List (Option Nat)) (l : Library) :
    (ps.foldl Library.addPublication l).publications =
      l.publications ++ ps := by
  induction ps generalizing l with
  | nil => simp
  | cons p t ih => simp [List.foldl_cons, ih, Library.addPublication]

theorem readerInv_step (s : Reader × Heap) (op : ReaderOp)
    (hs : ReaderInv s) : ReaderInv (stepOp s op) := by
  obtain ⟨r, h⟩ := s
  obtain ⟨hnd, hav⟩ := hs
  cases op with
  | listB => exact ⟨hnd, hav⟩
  | retAll =>
    refine ⟨List.nodup_nil, ?_⟩
    intro i hi
    cases hi
  | borrowB b =>
    cases b with
    | none => exact ⟨hnd, hav⟩
    | some i =>
      cases hg : h.get i with
      | none =>
        simp only [stepOp, Reader.borrowBook, hg]
        exact ⟨hnd, hav⟩
      | some o =>
        by_cases hao : o.isAvailable
        · have hlt := Heap.lt_length_of_get hg
          have hnotmem : some i ∉ r.borrowed := by
            intro hm
            have hfalse := hav i hm
            rw [hg] at hfalse
            simp only [Option.map_some'] at hfalse
            rw [hao] at hfalse
            cases hfalse
          simp only [stepOp, Reader.borrowBook, hg, hao, if_true]
          constructor
          · rw [List.nodup_append]
            refine ⟨hnd, List.nodup_singleton _, ?_⟩
            intro a ha hb
            rw [List.mem_singleton] at hb
            subst hb
            exact hnotmem ha
          · intro j hj
            rw [List.mem_append, List.mem_singleton] at hj
            rcases hj with hjm | hji
            · have hij : i ≠ j := by
                rintro rfl
                exact hnotmem hjm
              rw [Heap.get_set_ne h _ hij]
              exact hav j hjm
            · have : j = i := by injection hji
              subst this
              rw [Heap.get_set_self h j o.borrow hlt]
              simp [Publication.isAvailable_borrow]
        · simp only [stepOp, Reader.borrowBook, hg, hao, if_false]
          exact ⟨hnd, hav⟩

theorem readerInv_runOps (s : Reader × Heap) (ops : List ReaderOp)
    (hs : ReaderInv s) : ReaderInv (runOps s ops) := by
  induction ops generalizing s with
  | nil => exact hs
  | cons op t ih => exact ih _ (readerInv_step s op hs)

theorem readerInv_init (name : String) (h : Heap) :
    ReaderInv (⟨name, []⟩, h) := by
  refine ⟨List.nodup_nil, ?_⟩
  intro i hi
  cases hi

/-!  Specification theorems. -/

/-- C1: `borrowBook` on a null reference leaves reader and heap unchanged
and prints only the diagnostic; on an unavailable book it leaves reader
and heap unchanged and prints only "Book not available!"; on an available
book it appends the reference to the reader's borrowed list, marks the
book unavailable, and prints the confirmation line. -/
theorem borrowBook_spec (r : Reader) (h : Heap) (b : Option Nat) :
    (b = none → r.borrowBook h b = (r, h, "Invalid book pointer\n")) ∧
    (∀ i o, b = some i → h.get i = some o → o.isAvailable = false →
      r.borrowBook h b = (r, h, "Book not available!\n")) ∧
    (∀ i o, b = some i → h.get i = some o → o.isAvailable = true →
      r.borrowBook h b =
        ({ r with borrowed := r.borrowed ++ [some i] }, h.set i o.borrow,
          r.name ++ " borrowed \"" ++ o.getTitle ++ "\"\n") ∧
      ((h.set i o.borrow).get i).map Publication.isAvailable = some false) := by
  refine ⟨?_, ?_, ?_⟩
  · rintro rfl
    rfl
  · rintro i o rfl hg hav
    simp [Reader.borrowBook, hg, hav]
  · rintro i o rfl hg hav
    refine ⟨by simp [Reader.borrowBook, hg, hav], ?_⟩
    rw [Heap.get_set_self h i o.borrow (Heap.lt_length_of_get hg)]
    simp [Publication.isAvailable_borrow]

/-- Witness for C1: the three branches of `borrowBook_spec` at concrete
states — a null pointer, the taken book of `wHeap`, and main's available
book b1. -/
theorem borrowBook_spec_witness :
    ivan.borrowBook mainHeap none = (ivan, mainHeap, "Invalid book pointer\n") ∧
    ivan.borrowBook wHeap (some 0) = (ivan, wHeap, "Book not available!\n") ∧
    ivan.borrowBook mainHeap (some 0) =
      ({ ivan with borrowed := ivan.borrowed ++ [some 0] },
        mainHeap.set 0 (Publication.book b1Data).borrow,
        ivan.name ++ " borrowed \"" ++
          (Publication.book b1Data).getTitle ++ "\"\n") :=
  ⟨(borrowBook_spec ivan mainHeap none).1 rfl,
   (borrowBook_spec ivan wHeap (some 0)).2.1 0
     (Publication.book { b1Data with available := false }) rfl rfl rfl,
   ((borrowBook_spec ivan mainHeap (some 0)).2.2 0
     (Publication.book b1Data) rfl rfl rfl).1⟩

set_option maxRecDepth 8000 in
/-- C2: in the fixed scenario of main, b1 is initially available; the
program output contains the line `Ivan Petrov borrowed "C++ for
Beginners"`; after the borrow b1 is unavailable; and the reader's
listBooks output is exactly its header plus the single line
`Book: C++ for Beginners (2020), Education - Herbert Schildt [Taken]`. -/
theorem main_scenario_spec :
    (mainHeap.get 0).map Publication.isAvailable = some true ∧
    (∃ pre post,
      mainOutput = pre ++ "Ivan Petrov borrowed \"C++ for Beginners\"\n" ++ post) ∧
    (afterBorrow.2.1.get 0).map Publication.isAvailable = some false ∧
    afterBorrow.1.listBooks afterBorrow.2.1 =
      "Ivan Petrov borrowed books:\n" ++
        "Book: C++ for Beginners (2020), Education - Herbert Schildt [Taken]\n" :=
  ⟨by decide,
   ⟨"",
    afterBorrow.1.listBooks afterBorrow.2.1 ++
      mainLib.showAll afterBorrow.2.1 ++ olena.showRole ++
      printList afterBorrow.2.1 [some 0, some 1, some 2]
        "All Publications (via template)",
    by decide⟩,
   by decide, by decide⟩

/-- C3: for every book-like object that is available, `borrow` makes it
unavailable and a subsequent `ret` restores the original (available)
object — a round trip. -/
theorem borrow_ret_roundtrip (o : Publication) (hb : o.isBook = true)
    (ha : o.isAvailable = true) :
    o.borrow.isAvailable = false ∧ o.borrow.ret = o := by
  refine ⟨Publication.isAvailable_borrow o, ?_⟩
  cases o with
  | book d =>
    obtain ⟨t, y, a, g, av⟩ := d
    cases av
    · cases ha
    · rfl
  | ebook d s =>
    obtain ⟨t, y, a, g, av⟩ := d
    cases av
    · cases ha
    · rfl
  | magazine t y a i => cases hb

/-- Witness for C3: the round trip on main's available book b1. -/
theorem borrow_ret_roundtrip_witness :
    (Publication.book b1Data).borrow.isAvailable = false ∧
    (Publication.book b1Data).borrow.ret = Publication.book b1Data :=
  borrow_ret_roundtrip (Publication.book b1Data) rfl rfl

/-- C4: `returnAll` empties the reader's borrowed list; every reference
the reader held now designates the `ret` of the object it designated
before (so every held book-like object becomes available), for any list
size; and `returnAll` is idempotent: running it again from the resulting
state changes nothing. -/
theorem returnAll_spec (r : Reader) (h : Heap) :
    (r.returnAll h).1.borrowed = [] ∧
    (∀ i, some i ∈ r.borrowed →
      (r.returnAll h).2.get i = (h.get i).map Publication.ret) ∧
    (∀ i o, some i ∈ r.borrowed → h.get i = some o → o.isBook = true →
      ((r.returnAll h).2.get i).map Publication.isAvailable = some true) ∧
    (r.returnAll h).1.returnAll (r.returnAll h).2 = r.returnAll h := by
  refine ⟨rfl, ?_, ?_, rfl⟩
  · intro i hm
    exact foldl_retStep_get_mem r.borrowed h hm
  · intro i o hm hg hbk
    have hget := foldl_retStep_get_mem r.borrowed h hm
    rw [show (r.returnAll h).2 = r.borrowed.foldl Heap.retStep h from rfl,
      hget, hg]
    simp [Publication.isAvailable_ret_of_isBook o hbk]

/-- Witness for C4: `returnAll` on a reader holding the single taken book
of `wHeap` empties the list, makes the book available again, and a second
`returnAll` changes nothing. -/
theorem returnAll_spec_witness :
    (wReader.returnAll wHeap).1.borrowed = [] ∧
    (wReader.returnAll wHeap).2.get 0 = (wHeap.get 0).map Publication.ret ∧
    ((wReader.returnAll wHeap).2.get 0).map Publication.isAvailable =
      some true ∧
    (wReader.returnAll wHeap).1.returnAll (wReader.returnAll wHeap).2 =
      wReader.returnAll wHeap :=
  ⟨(returnAll_spec wReader wHeap).1,
   (returnAll_spec wReader wHeap).2.1 0 (by decide),
   (returnAll_spec wReader wHeap).2.2.1 0
     (Publication.book { b1Data with available := false }) (by decide) rfl rfl,
   (returnAll_spec wReader wHeap).2.2.2⟩

/-- C5: `showAll` and the `printList` template emit exactly the header
followed by the displayInfo output of each non-null (dereferenceable)
entry, in sequence order, skipping null entries — and a library built by
repeated `addPublication` stores its entries in insertion order.  All the
functions involved are total, so no input aborts. -/
theorem showAll_printList_insertion_order (h : Heap) (l : Library)
    (ps : List (Option Nat)) (title : String) :
    l.showAll h =
      "\n=== Library Collection ===\n" ++
        (l.publications.filterMap fun p => p.bind h.get).foldr
          (fun o acc => o.display ++ acc) "" ∧
    printList h ps title =
      "\n=== " ++ title ++ " ===\n" ++
        (ps.filterMap fun p => p.bind h.get).foldr
          (fun o acc => o.display ++ acc) "" ∧
    (ps.foldl Library.addPublication ⟨[]⟩).publications = ps := by
  refine ⟨?_, ?_, ?_⟩
  · rw [Library.showAll, displayLoop_eq_foldr]
  · rw [printList, displayLoop_eq_foldr]
  · rw [foldl_addPublication]
    rfl

/-- C6: EBook's displayInfo is exactly
`E-Book: {title} ({year}), size: {fileSize}MB - {author}` — in
particular it does not depend on the availability flag (no availability
suffix) — and on main's sample EBook it produces exactly
`E-Book: The C++ Programming Language (2013), size: 5.6MB - Bjarne
Stroustrup`. -/
theorem ebook_display_format (d : BookData) (s : ℚ) :
    Publication.display (.ebook d s) =
      "E-Book: " ++ d.title ++ " (" ++ toString d.year ++ "), size: " ++
        decimalString s ++ "MB - " ++ d.author.name ++ "\n" ∧
    (∀ b : Bool, Publication.display (.ebook { d with available := b } s) =
      Publication.display
        (.ebook { d with available := !b } s)) ∧
    Publication.display sampleEbook =
      "E-Book: The C++ Programming Language (2013), size: 5.6MB - Bjarne Stroustrup\n" :=
  ⟨rfl, fun b => rfl, by decide⟩

/-- C7: starting from an empty borrowed list, any sequence of reader
operations on any heap leaves the reader's borrowed list without
duplicates: each book is held at most once. -/
theorem reader_borrowed_nodup (name : String) (h : Heap)
    (ops : List ReaderOp) :
    ((runOps (⟨name, []⟩, h) ops).1.borrowed).Nodup :=
  (readerInv_runOps (⟨name, []⟩, h) ops (readerInv_init name h)).1

/-- C8: `borrow` and `ret` are idempotent on every publication object —
repeating either call yields the state one call yields. -/
theorem borrow_ret_idempotent (o : Publication) :
    o.borrow.borrow = o.borrow ∧ o.ret.ret = o.ret := by
  cases o <;> exact ⟨rfl, rfl⟩

/-- C9: Admin::removeBook leaves the library unchanged (hence every
publication reference in it); its only effect is the simulated-removal
message. -/
theorem removeBook_frame (a : Admin) (lib : Library) :
    (a.removeBook lib).1 = lib ∧
    (a.removeBook lib).2 = a.name ++ " removed a book (simulated)\n" :=
  ⟨rfl, rfl⟩

/-- C10: starting from an empty borrowed list, after any sequence of
reader operations on any heap, every reference the reader currently
holds designates an object whose availability flag is false. -/
theorem reader_held_books_unavailable (name : String) (h : Heap)
    (ops : List ReaderOp) (i : Nat)
    (hm : some i ∈ (runOps (⟨name, []⟩, h) ops).1.borrowed) :
    ((runOps (⟨name, []⟩, h) ops).2.get i).map Publication.isAvailable =
      some false :=
  (readerInv_runOps (⟨name, []⟩, h) ops (readerInv_init name h)).2 i hm

/-- Witness for C10: after borrowing main's book b1, the held reference 0
designates an unavailable book. -/
theorem reader_held_books_unavailable_witness :
    ((runOps (⟨"Ivan Petrov", []⟩, mainHeap) [.borrowB (some 0)]).2.get 0).map
        Publication.isAvailable = some false :=
  reader_held_books_unavailable "Ivan Petrov" mainHeap [.borrowB (some 0)] 0
    (by decide)
